import Mathlib

/-!
Verification of the Device Command Execution & Automation Layer
(`src/adb-wrapper.js`) against its specification.

The JavaScript source is shallowly embedded: every function the claims
touch is translated into an executable Lean definition operating on
explicit state, with JavaScript strings modelled as Lean `String`
(parsing routines work on `String.data : List Char`), JavaScript
numbers modelled as an inductive covering NaN, the two infinities and
finite rationals, and fallible code returning `Except`.
-/

namespace AdbWrapper

/-- The single-quote character, written via its code point. -/
def squote : Char := Char.ofNat 39

/-- The backslash character, written via its code point. -/
def bslash : Char := Char.ofNat 92

/-- The backtick character, written via its code point. -/
def btick : Char := Char.ofNat 96

/-- A JavaScript number: NaN, an infinity, or a finite value
(finite doubles are embedded as rationals). -/
inductive JSNum
  | nan
  | posInf
  | negInf
  | finite (q : ℚ)
deriving DecidableEq

/-- A JavaScript value as far as the wrapper's `typeof` checks care:
a number, a string, or anything else. -/
inductive JSVal
  | num (n : JSNum)
  | str (s : String)
  | other
deriving DecidableEq

/-- `arg.replace(/'/g, "'\\''")` from `sanitizeShellArg`: every literal
single quote becomes the four characters quote, backslash, quote, quote. -/
def escapeQuotes : List Char → List Char
  | [] => []
  | c :: cs =>
      (if c = squote then [squote, bslash, squote, squote] else [c]) ++ escapeQuotes cs

/-- `sanitizeShellArg` from src/adb-wrapper.js lines 42-48: rejects
non-strings, otherwise returns the template literal
`` `'${arg.replace(/'/g, "'\\''")}';` `` — note that the source's
template literal places a semicolon after the closing quote, so the
returned token is quote, escaped body, quote, semicolon. -/
def sanitizeShellArg (v : JSVal) : Except String String :=
  match v with
  | .str s => .ok (String.mk (squote :: (escapeQuotes s.data ++ [squote, ';'])))
  | _ => .error "Argument must be a string"

/-- Modelled from the spec (§4.2 Argument Sanitizer): the value wrapped
in single quotes with every literal single quote replaced by the
four-character escape, and nothing else. -/
def specQuoteWrap (s : String) : String :=
  String.mk (squote :: (escapeQuotes s.data ++ [squote]))

/-- JavaScript's whitespace test for `String.prototype.trim`, restricted
to the ASCII whitespace characters that can occur in bridge output. -/
def wsChar (c : Char) : Bool :=
  c = ' ' || c = Char.ofNat 9 || c = Char.ofNat 10 || c = Char.ofNat 13 ||
    c = Char.ofNat 11 || c = Char.ofNat 12

/-- `String.prototype.trim` on the character list. -/
def jsTrimList (cs : List Char) : List Char :=
  ((cs.dropWhile wsChar).reverse.dropWhile wsChar).reverse

/-- `String.prototype.trim`. -/
def jsTrim (s : String) : String :=
  String.mk (jsTrimList s.data)

/-- `String.prototype.split(sep)` with a one-character separator: splits
on every occurrence, keeping empty pieces. -/
def splitOnChar (sep : Char) : List Char → List (List Char)
  | [] => [[]]
  | c :: cs =>
      match splitOnChar sep cs, decide (c = sep) with
      | r, true => [] :: r
      | [], false => [[c]]
      | h :: t, false => (c :: h) :: t

/-- `String.prototype.includes(needle)`: some position of the haystack
starts with the needle. -/
def containsSub (needle : List Char) : List Char → Bool
  | [] => needle.isEmpty
  | c :: cs => needle.isPrefixOf (c :: cs) || containsSub needle cs

/-- `ADBError` from src/adb-wrapper.js lines 13-20: message, failing
command string and underlying low-level cause. -/
structure ADBError where
  message : String
  command : String
  originalError : String
deriving DecidableEq

/-- The events the wrapper emits (`command_executed`, `warning`,
`error`, `connected`). -/
inductive Event
  | command_executed (command : String)
  | warning (text : String)
  | error (e : ADBError)
  | connected (deviceId : String)
deriving DecidableEq

/-- One observable step of `executeCommand`: either an event emission or
the start of the external bridge process. -/
inductive TraceItem
  | emitted (e : Event)
  | procExec (command : String)
deriving DecidableEq

/-- The outcome of `execAsync` on the host: captured stdout/stderr on
success, or a low-level error message (non-zero exit, timeout, spawn
failure) on failure. -/
inductive ExecOutcome
  | success (stdout stderr : String)
  | failure (message : String)

/-- The ternary `this.deviceId ? `adb -s ${id} ${cmd}` : `adb ${cmd}``
from `executeCommand` lines 91-93; a JavaScript `null` or empty device
id is falsy and yields the unaddressed form. -/
def resolveCommand (deviceId : Option String) (command : String) : String :=
  match deviceId with
  | some id => if id = "" then "adb " ++ command else "adb -s " ++ id ++ " " ++ command
  | none => "adb " ++ command

/-- The session's device identifier is set exactly when the source's
truthiness test `this.deviceId ?` passes. -/
def deviceIdSet (deviceId : Option String) : Bool :=
  match deviceId with
  | some id => !(id = "")
  | none => false

/-- `executeCommand` from src/adb-wrapper.js lines 89-116, with the
external process abstracted as `run : String → ExecOutcome`. Returns
the ordered trace of observable steps together with the call's result:
the `command_executed` event is emitted, the process runs, then on
success a `warning` event fires when stderr is non-empty and lacks the
token WARNING and the trimmed stdout is returned; on failure an
`ADBError` embedding the cause is built, emitted as an `error` event,
and the call fails with that same error. -/
def executeCommand (deviceId : Option String) (command : String)
    (run : String → ExecOutcome) : List TraceItem × Except ADBError String :=
  let fc := resolveCommand deviceId command
  let pre : List TraceItem := [.emitted (.command_executed fc), .procExec fc]
  match run fc with
  | .success stdout stderr =>
      let evs := if stderr ≠ "" ∧ containsSub "WARNING".data stderr.data = false then
          pre ++ [.emitted (.warning stderr)] else pre
      (evs, .ok (jsTrim stdout))
  | .failure msg =>
      let e : ADBError := ⟨"Failed to execute ADB command: " ++ msg, command, msg⟩
      (pre ++ [.emitted (.error e)], .error e)

/-- `validatePositiveNumber` from src/adb-wrapper.js lines 25-29:
rejects non-numbers, negative values and non-finite values (NaN fails
the `isFinite` test, negative infinity the `< 0` test) with the message
`<name> must be a positive number`; the model returns the validated
finite rational on success. -/
def validatePositiveNumber (v : JSVal) (name : String) : Except String ℚ :=
  match v with
  | .num (.finite q) =>
      if q < 0 then .error (name ++ " must be a positive number") else .ok q
  | _ => .error (name ++ " must be a positive number")

/-- `tap` from src/adb-wrapper.js lines 218-221: validates both
coordinates (x first, as `validateCoordinate` does), then builds the
device-shell command with `Math.floor` of each coordinate; the built
command is what `executeShell` dispatches. -/
def tap (x y : JSVal) : Except String String :=
  match validatePositiveNumber x "x coordinate" with
  | .error e => .error e
  | .ok qx =>
      match validatePositiveNumber y "y coordinate" with
      | .error e => .error e
      | .ok qy =>
          .ok ("input tap " ++ toString (Rat.floor qx) ++ " " ++ toString (Rat.floor qy))

/-- `swipe` from src/adb-wrapper.js lines 232-239: validates both
coordinate pairs and the duration, then builds the swipe command with
`Math.floor` of every parameter. -/
def swipe (x1 y1 x2 y2 dur : JSVal) : Except String String :=
  match validatePositiveNumber x1 "x coordinate" with
  | .error e => .error e
  | .ok q1 =>
      match validatePositiveNumber y1 "y coordinate" with
      | .error e => .error e
      | .ok q2 =>
          match validatePositiveNumber x2 "x coordinate" with
          | .error e => .error e
          | .ok q3 =>
              match validatePositiveNumber y2 "y coordinate" with
              | .error e => .error e
              | .ok q4 =>
                  match validatePositiveNumber dur "duration" with
                  | .error e => .error e
                  | .ok qd =>
                      .ok ("input swipe " ++ toString (Rat.floor q1) ++ " " ++
                        toString (Rat.floor q2) ++ " " ++ toString (Rat.floor q3) ++ " " ++
                        toString (Rat.floor q4) ++ " " ++ toString (Rat.floor qd))

/-- One `{id, status}` record of the parsed device list. -/
structure DeviceRecord where
  id : String
  status : String
deriving DecidableEq

/-- One line of the device list, per src/adb-wrapper.js lines 140-143:
split on tab, trim each part, `parts[1] || 'unknown'` (an absent or
empty status falls back to the literal `unknown`). -/
def parseDeviceLine (cs : List Char) : DeviceRecord :=
  let parts := (splitOnChar (Char.ofNat 9) cs).map jsTrimList
  { id := String.mk (parts.headD [])
    status :=
      match parts.get? 1 with
      | some p => if p = [] then "unknown" else String.mk p
      | none => "unknown" }

/-- The parsing performed by `getDevices` (src/adb-wrapper.js lines
134-144) on the trimmed stdout of the device-list query: drop the
header line, keep the lines that are non-blank after trimming, and
parse each into a `DeviceRecord`, preserving line order. -/
def getDevices (output : String) : List DeviceRecord :=
  (((splitOnChar (Char.ofNat 10) output.data).drop 1).filter
    (fun line => !(jsTrimList line = []))).map parseDeviceLine

/-- The observable outcome of a successful `autoConnect`: the device id
assigned to `this.deviceId` (which is also the returned value) and the
events emitted. -/
structure ConnectOutcome where
  deviceId : String
  events : List Event
deriving DecidableEq

/-- `autoConnect` from src/adb-wrapper.js lines 172-186, parametrised
by the enumerated device sequence: empty list fails with
`No devices found`; otherwise the first record (in order) whose status
is exactly `device` becomes the session's device id, a `connected`
event carrying it is emitted and it is returned; if no record
qualifies the call fails with `No authorized devices found`. -/
def autoConnect (devices : List DeviceRecord) : Except String ConnectOutcome :=
  if devices.length = 0 then .error "No devices found"
  else
    match devices.find? (fun d => d.status = "device") with
    | some d => .ok ⟨d.id, [.connected d.id]⟩
    | none => .error "No authorized devices found"

/-- The maximal leading run of ASCII digits, with the rest of the
input (the greedy `\d+` step of the source's regexes). -/
def takeDigits : List Char → List Char × List Char
  | [] => ([], [])
  | c :: cs =>
      if c.isDigit then
        let p := takeDigits cs
        (c :: p.1, p.2)
      else ([], c :: cs)

/-- Numeric value of a digit string (`parseInt` on a `\d+` capture). -/
def digitsVal (ds : List Char) : ℕ :=
  ds.foldl (fun n c => 10 * n + (c.toNat - 48)) 0

/-- Whether `/(\d+)x(\d+)/` matches at this exact position: a non-empty
digit run, the letter x, another non-empty digit run. Taking the
maximal runs is faithful to the regex: giving back digits would place a
digit where the literal x must sit, so no backtracking can succeed. -/
def matchSizeAt (cs : List Char) : Option (ℕ × ℕ) :=
  let p := takeDigits cs
  if p.1 = [] then none
  else
    match p.2 with
    | 'x' :: rest =>
        let q := takeDigits rest
        if q.1 = [] then none else some (digitsVal p.1, digitsVal q.1)
    | _ => none

/-- First match of `/(\d+)x(\d+)/` in the raw text: the regex engine
tries each successive start position. -/
def parseScreenSize : List Char → Option (ℕ × ℕ)
  | [] => none
  | c :: cs =>
      match matchSizeAt (c :: cs) with
      | some r => some r
      | none => parseScreenSize cs

/-- The cached Screen Geometry (`this.screenSize`); `parseInt` of a
digit capture is a non-negative integer, modelled as `ℤ` so that the
sign invariants are meaningful. -/
structure ScreenSize where
  width : ℤ
  height : ℤ
deriving DecidableEq

/-- The observable outcome of one successful `getScreenSize` call: the
returned geometry, the cache (`this.screenSize`) after the call, and
whether a `wm size` query was dispatched. -/
structure ScreenSizeCall where
  result : ScreenSize
  cacheAfter : Option ScreenSize
  queried : Bool
deriving DecidableEq

/-- `getScreenSize` from src/adb-wrapper.js lines 194-210: a cached
value is returned untouched (and no command dispatched) unless
`refresh` is set; otherwise the `wm size` output is parsed by the first
`<digits>x<digits>` match — a match overwrites the cache, no match
fails with `Failed to parse screen size`. -/
def getScreenSize (cache : Option ScreenSize) (refresh : Bool) (raw : String) :
    Except String ScreenSizeCall :=
  match cache, refresh with
  | some s, false => .ok ⟨s, some s, false⟩
  | _, _ =>
      match parseScreenSize raw.data with
      | some (w, h) => .ok ⟨⟨(w : ℤ), (h : ℤ)⟩, some ⟨(w : ℤ), (h : ℤ)⟩, true⟩
      | none => .error "Failed to parse screen size"

/-- `this.screenSize` after a `getScreenSize` call, including the
failure case, where the JavaScript `throw` leaves the field unchanged. -/
def screenStep (cache : Option ScreenSize) (refresh : Bool) (raw : String) :
    Option ScreenSize :=
  match getScreenSize cache refresh raw with
  | .ok r => r.cacheAfter
  | .error _ => cache

/-- A session operation as far as the cached geometry is concerned:
`getScreenSize` (directly or via scrollDown/scrollUp, which call it
without the refresh flag) is the only writer of `this.screenSize`;
every other operation leaves it unchanged. -/
inductive SessionOp
  | screenQuery (refresh : Bool) (raw : String)
  | otherOp

/-- The cached geometry after a sequence of session operations. -/
def runOps : Option ScreenSize → List SessionOp → Option ScreenSize
  | cache, [] => cache
  | cache, .screenQuery r raw :: ops => runOps (screenStep cache r raw) ops
  | cache, .otherOp :: ops => runOps cache ops

/-- Whether `/<label>(\d+)/` matches at this exact position: the
literal label followed by a non-empty digit run. -/
def matchNumAt (label cs : List Char) : Option ℕ :=
  if label.isPrefixOf cs then
    let ds := (takeDigits (cs.drop label.length)).1
    if ds = [] then none else some (digitsVal ds)
  else none

/-- First match of `/<label>(\d+)/` anywhere in the text. -/
def findLabeledNat (label : List Char) : List Char → Option ℕ
  | [] => matchNumAt label []
  | c :: cs =>
      match matchNumAt label (c :: cs) with
      | some n => some n
      | none => findLabeledNat label cs

/-- The Battery Snapshot; a field is `none` when its label produced no
match. Temperature is in °C, hence rational. -/
structure BatteryInfo where
  level : Option ℕ
  status : Option ℕ
  health : Option ℕ
  temperature : Option ℚ
deriving DecidableEq

/-- The parsing performed by `getBatteryInfo` (src/adb-wrapper.js lines
468-481) on the battery dump: four independent labelled captures; a
captured string is a non-empty digit run, hence truthy, so a present
field always yields its `parseInt` value (`0` included) and only an
absent match yields `null`; temperature is divided by 10. -/
def getBatteryInfo (output : String) : BatteryInfo :=
  { level := findLabeledNat "level: ".data output.data
    status := findLabeledNat "status: ".data output.data
    health := findLabeledNat "health: ".data output.data
    temperature := (findLabeledNat "temperature: ".data output.data).map
      (fun n => (n : ℚ) / 10) }

/-- The character class `[a-zA-Z0-9_]` shared by the dotted-identifier
regexes of `getCurrentPackage` and `validatePackageName` (the latter
carries the `i` flag, so both classes are case-insensitive). -/
def identChar (c : Char) : Bool :=
  c.isAlpha || c.isDigit || c = '_'

/-- Maximal leading run of identifier characters with the rest of the
input (the greedy `[a-zA-Z0-9_]*` step). -/
def takeIdentChars : List Char → List Char × List Char
  | [] => ([], [])
  | c :: cs =>
      if identChar c then
        let p := takeIdentChars cs
        (c :: p.1, p.2)
      else ([], c :: cs)

/-- The greedy `(?:\.[a-zA-Z][a-zA-Z0-9_]*)+` step as a one-pass scan:
a dot followed by a letter opens a further group, an identifier
character extends the current group, anything else ends the run. The
entry point (`matchDottedAt`) only calls this at the residue of a
maximal identifier run, whose head is never an identifier character,
so the scan is exactly the regex's greedy group repetition; no
backtracking can help, since shortening an identifier run would place
an identifier character where a dot must sit. -/
def takeDotGroups : List Char → List Char
  | '.' :: d :: ds => if d.isAlpha then '.' :: d :: takeDotGroups ds else []
  | c :: cs => if identChar c then c :: takeDotGroups cs else []
  | [] => []

/-- Whether `/[a-zA-Z][a-zA-Z0-9_]*(?:\.[a-zA-Z][a-zA-Z0-9_]*)+/`
matches at this exact position: a letter, identifier characters, then
at least one dot group. -/
def matchDottedAt : List Char → Option (List Char)
  | [] => none
  | c :: rest =>
      if c.isAlpha then
        let p := takeIdentChars rest
        let g := takeDotGroups p.2
        if g = [] then none else some (c :: (p.1 ++ g))
      else none

/-- First match of the dotted-identifier regex in the text. -/
def firstDottedIdent : List Char → Option (List Char)
  | [] => none
  | c :: cs =>
      match matchDottedAt (c :: cs) with
      | some m => some m
      | none => firstDottedIdent cs

/-- Outcome of one device-shell query as seen by `getCurrentPackage`:
the query either produced text or threw. -/
inductive QueryOutcome
  | ok (output : String)
  | fail

/-- `getCurrentPackage` from src/adb-wrapper.js lines 316-332: the
resumed-activity dump is consulted first; only if that query throws is
the current-focus dump consulted; the consulted output's first
dotted-identifier match is returned, `null` when there is no match or
when both queries throw. -/
def getCurrentPackage (primary fallback : QueryOutcome) : Option String :=
  match primary with
  | .ok out => (firstDottedIdent out.data).map String.mk
  | .fail =>
      match fallback with
      | .ok out => (firstDottedIdent out.data).map String.mk
      | .fail => none

/-- The anchored package-name regex
`/^[a-z][a-z0-9_]*(?:\.[a-z][a-z0-9_]*)+$/i` of `validatePackageName`,
as a recursive acceptor over the characters after the leading letter:
`dotSeen` records whether the mandatory `+` group has occurred; a dot
must be followed by a letter, every other accepted character is an
identifier character. -/
def pkgTailOk : Bool → List Char → Bool
  | dotSeen, [] => dotSeen
  | dotSeen, c :: cs =>
      if c = '.' then
        match cs with
        | [] => false
        | d :: ds => d.isAlpha && pkgTailOk true ds
      else identChar c && pkgTailOk dotSeen cs

/-- Whether the whole string matches the package-name regex: non-empty,
leading letter, and an accepted tail containing at least one dot
group. -/
def validPackageFormat (s : String) : Bool :=
  match s.data with
  | [] => false
  | c :: cs => c.isAlpha && pkgTailOk false cs

/-- `validatePackageName` from src/adb-wrapper.js lines 53-57: rejects
non-strings and strings not matching the anchored regex. -/
def validatePackageName (v : JSVal) : Except String Unit :=
  match v with
  | .str s => if validPackageFormat s then .ok () else .error "Invalid package name format"
  | _ => .error "Invalid package name format"

/-- `forceStop` from src/adb-wrapper.js lines 287-290: validation, then
the package name is embedded directly (no sanitizer) in the shell
command handed to `executeShell`. -/
def forceStop (v : JSVal) : Except String String :=
  match v with
  | .str s =>
      if validPackageFormat s then .ok ("am force-stop " ++ s)
      else .error "Invalid package name format"
  | _ => .error "Invalid package name format"

/-- `launchApp` from src/adb-wrapper.js lines 297-300. -/
def launchApp (v : JSVal) : Except String String :=
  match v with
  | .str s =>
      if validPackageFormat s then
        .ok ("monkey -p " ++ s ++ " -c android.intent.category.LAUNCHER 1")
      else .error "Invalid package name format"
  | _ => .error "Invalid package name format"

/-- `clearAppData` from src/adb-wrapper.js lines 307-310. -/
def clearAppData (v : JSVal) : Except String String :=
  match v with
  | .str s =>
      if validPackageFormat s then .ok ("pm clear " ++ s)
      else .error "Invalid package name format"
  | _ => .error "Invalid package name format"

/-- The shell metacharacters that must not escape into an unsanitized
command: quotes, backslash, separators, substitution, redirection,
globbing, expansion and whitespace. -/
def shellMetaChars : List Char :=
  [squote, Char.ofNat 34, bslash, btick, ';', '&', '|', '$', '<', '>',
    '(', ')', Char.ofNat 123, Char.ofNat 125, '[', ']', '*', '?', '~', '#',
    '!', ' ', Char.ofNat 9, Char.ofNat 10, Char.ofNat 13]

/-- A value that passes coordinate validation: a finite, non-negative
number. -/
def validCoordVal (v : JSVal) : Prop :=
  ∃ q : ℚ, v = .num (.finite q) ∧ 0 ≤ q

/-- The shape of one dotted-identifier segment: non-empty, leading
letter, identifier characters after it. -/
def segShape (t : List Char) : Prop :=
  ∃ d ds, t = d :: ds ∧ d.isAlpha = true ∧ ∀ c ∈ ds, identChar c = true

/-- Both cached dimensions are non-negative (trivially true of an empty
cache). -/
def nonnegGeom : Option ScreenSize → Prop
  | none => True
  | some sz => 0 ≤ sz.width ∧ 0 ≤ sz.height

/-! ### Theorems -/

theorem ratFloor_eq_intFloor (q : ℚ) : Rat.floor q = ⌊q⌋ :=
  (Rat.floor_def' q).trans Rat.floor_def.symm

theorem string_mk_append (l m : List Char) :
    String.mk l ++ String.mk m = String.mk (l ++ m) := rfl

/-- C1: the claim states that `sanitizeShellArg` returns exactly the
single-quote wrapping of its string argument and nothing else, but the
source's template literal appends a semicolon after the closing quote:
on every string the result is the spec's wrapping followed by a
semicolon, so on the failing input `"abc"` the code returns `'abc';`
where the claim requires `'abc'`. Non-string rejection does hold. -/
theorem C1_sanitizer_semicolon_bug :
    sanitizeShellArg (.str "abc") =
      .ok (String.mk [squote, 'a', 'b', 'c', squote, ';']) ∧
    sanitizeShellArg (.str "abc") ≠ .ok (specQuoteWrap "abc") ∧
    (∀ s : String,
      sanitizeShellArg (.str s) = .ok (specQuoteWrap s ++ String.mk [';'])) ∧
    sanitizeShellArg (.num .nan) = .error "Argument must be a string" ∧
    sanitizeShellArg .other = .error "Argument must be a string" := by
  refine ⟨rfl, fun h => absurd (Except.ok.inj h) (by decide), fun s => ?_, rfl, rfl⟩
  rw [specQuoteWrap, string_mk_append, sanitizeShellArg]
  simp

/-- C2: whenever the external process fails, `executeCommand` builds an
`ADBError` whose message embeds the underlying cause and which carries
the failing command string and the low-level error, emits an `error`
event carrying that same error value, and fails with that same error —
by construction it never fails with anything but an `ADBError`; on
success it returns the trimmed standard output. -/
theorem C2_executor_error_handling (deviceId : Option String) (command : String)
    (run : String → ExecOutcome) :
    (∀ msg, run (resolveCommand deviceId command) = .failure msg →
      ∃ e : ADBError,
        (executeCommand deviceId command run).2 = .error e ∧
        TraceItem.emitted (.error e) ∈ (executeCommand deviceId command run).1 ∧
        e.message = "Failed to execute ADB command: " ++ msg ∧
        e.command = command ∧
        e.originalError = msg) ∧
    (∀ stdout stderr, run (resolveCommand deviceId command) = .success stdout stderr →
      (executeCommand deviceId command run).2 = .ok (jsTrim stdout)) := by
  constructor
  · intro msg h
    refine ⟨⟨"Failed to execute ADB command: " ++ msg, command, msg⟩, ?_, ?_, rfl, rfl, rfl⟩ <;>
      simp [executeCommand, h]
  · intro stdout stderr h
    simp [executeCommand, h]

/-- Witness for C2 at a concrete failing run and a concrete successful
run. -/
theorem C2_executor_error_handling_witness :
    (∃ e : ADBError,
      (executeCommand none "devices" (fun _ => .failure "boom")).2 = .error e ∧
      TraceItem.emitted (.error e) ∈
        (executeCommand none "devices" (fun _ => .failure "boom")).1 ∧
      e.message = "Failed to execute ADB command: " ++ "boom" ∧
      e.command = "devices" ∧
      e.originalError = "boom") ∧
    (executeCommand none "shell ls" (fun _ => .success " hi " "")).2 =
      .ok (jsTrim " hi ") :=
  ⟨(C2_executor_error_handling none "devices" (fun _ => .failure "boom")).1 "boom" rfl,
   (C2_executor_error_handling none "shell ls" (fun _ => .success " hi " "")).2
     " hi " "" rfl⟩

/-- C4: every `executeCommand` trace, success or failure, begins with
the `command_executed` event carrying the resolved command line,
emitted strictly before the external process starts; the resolved line
carries the `-s <id>` device flag exactly when the session's device
identifier is set (the source's truthiness test: non-null and
non-empty), and is the plain `adb <command>` line otherwise. -/
theorem C4_trace_order_and_device_flag (deviceId : Option String) (command : String)
    (run : String → ExecOutcome) :
    (∃ rest, (executeCommand deviceId command run).1 =
      TraceItem.emitted (.command_executed (resolveCommand deviceId command)) ::
        TraceItem.procExec (resolveCommand deviceId command) :: rest) ∧
    (deviceIdSet deviceId = false → resolveCommand deviceId command = "adb " ++ command) ∧
    (deviceIdSet deviceId = true →
      ∃ id, deviceId = some id ∧ id ≠ "" ∧
        resolveCommand deviceId command = "adb -s " ++ id ++ " " ++ command) := by
  refine ⟨?_, ?_, ?_⟩
  · cases hrun : run (resolveCommand deviceId command) with
    | success stdout stderr =>
        by_cases hw : stderr ≠ "" ∧ containsSub "WARNING".data stderr.data = false
        · exact ⟨[.emitted (.warning stderr)], by simp [executeCommand, hrun, hw]⟩
        · exact ⟨[], by simp [executeCommand, hrun, hw]⟩
    | failure msg =>
        exact ⟨[.emitted (.error ⟨"Failed to execute ADB command: " ++ msg, command, msg⟩)],
          by simp [executeCommand, hrun]⟩
  · intro h
    cases deviceId with
    | none => rfl
    | some id =>
        have : id = "" := by simpa [deviceIdSet] using h
        simp [resolveCommand, this]
  · intro h
    cases deviceId with
    | none => simp [deviceIdSet] at h
    | some id =>
        have hne : ¬ id = "" := by simpa [deviceIdSet] using h
        exact ⟨id, rfl, hne, by simp [resolveCommand, hne]⟩

/-- Witness for C4: an addressed and an unaddressed concrete session. -/
theorem C4_trace_order_and_device_flag_witness :
    (∃ id, (some "emu" : Option String) = some id ∧ id ≠ "" ∧
      resolveCommand (some "emu") "shell ls" = "adb -s " ++ id ++ " " ++ "shell ls") ∧
    resolveCommand none "shell ls" = "adb " ++ "shell ls" ∧
    (∃ rest, (executeCommand none "shell ls" (fun _ => .failure "x")).1 =
      TraceItem.emitted (.command_executed (resolveCommand none "shell ls")) ::
        TraceItem.procExec (resolveCommand none "shell ls") :: rest) :=
  ⟨(C4_trace_order_and_device_flag (some "emu") "shell ls" (fun _ => .failure "x")).2.2 rfl,
   (C4_trace_order_and_device_flag none "shell ls" (fun _ => .failure "x")).2.1 rfl,
   (C4_trace_order_and_device_flag none "shell ls" (fun _ => .failure "x")).1⟩

theorem validatePositiveNumber_ok {q : ℚ} (hq : 0 ≤ q) (name : String) :
    validatePositiveNumber (.num (.finite q)) name = .ok q := by
  simp [validatePositiveNumber, not_lt.mpr hq]

theorem validatePositiveNumber_error (v : JSVal) (name : String)
    (hv : ¬ validCoordVal v) :
    validatePositiveNumber v name = .error (name ++ " must be a positive number") := by
  cases v with
  | num n =>
      cases n with
      | finite q =>
          have hq : q < 0 := by
            by_contra hc
            exact hv ⟨q, rfl, le_of_not_lt hc⟩
          simp [validatePositiveNumber, hq]
      | nan => rfl
      | posInf => rfl
      | negInf => rfl
  | str s => rfl
  | other => rfl

/-- C3: any tap or swipe whose coordinates (or, for swipe, duration)
are non-numeric, negative, infinite or NaN fails validation with the
descriptive `... must be a positive number` error and builds no
command; on valid inputs the built command embeds `Math.floor` of each
parameter, and in particular `tap(100.7, 200.9)` builds the command
with integer coordinates `100 200`. -/
theorem C3_input_validation_and_flooring :
    (∀ x y : JSVal, ¬ validCoordVal x ∨ ¬ validCoordVal y →
      ∃ name, tap x y = .error (name ++ " must be a positive number")) ∧
    (∀ qx qy : ℚ, 0 ≤ qx → 0 ≤ qy →
      tap (.num (.finite qx)) (.num (.finite qy)) =
        .ok ("input tap " ++ toString (Rat.floor qx) ++ " " ++ toString (Rat.floor qy))) ∧
    (tap (.num (.finite (100.7 : ℚ))) (.num (.finite (200.9 : ℚ))) =
      .ok "input tap 100 200") ∧
    (∀ x1 y1 x2 y2 dur : JSVal,
      ¬ validCoordVal x1 ∨ ¬ validCoordVal y1 ∨ ¬ validCoordVal x2 ∨
        ¬ validCoordVal y2 ∨ ¬ validCoordVal dur →
      ∃ name, swipe x1 y1 x2 y2 dur = .error (name ++ " must be a positive number")) ∧
    (∀ q1 q2 q3 q4 qd : ℚ, 0 ≤ q1 → 0 ≤ q2 → 0 ≤ q3 → 0 ≤ q4 → 0 ≤ qd →
      swipe (.num (.finite q1)) (.num (.finite q2)) (.num (.finite q3))
          (.num (.finite q4)) (.num (.finite qd)) =
        .ok ("input swipe " ++ toString (Rat.floor q1) ++ " " ++ toString (Rat.floor q2) ++
          " " ++ toString (Rat.floor q3) ++ " " ++ toString (Rat.floor q4) ++ " " ++
          toString (Rat.floor qd))) := by
  have hokx : ∀ (q : ℚ) (hq : 0 ≤ q) (name : String),
      validatePositiveNumber (.num (.finite q)) name = .ok q :=
    fun q hq name => validatePositiveNumber_ok hq name
  refine ⟨?_, ?_, ?_, ?_, ?_⟩
  · intro x y h
    rcases Classical.em (validCoordVal x) with hx | hx
    · rcases h with h | h
      · exact absurd hx h
      · obtain ⟨q, rfl, hq⟩ := hx
        exact ⟨"y coordinate", by rw [tap, hokx q hq, validatePositiveNumber_error y _ h]⟩
    · exact ⟨"x coordinate", by rw [tap, validatePositiveNumber_error x _ hx]⟩
  · intro qx qy hx hy
    rw [tap, hokx qx hx, hokx qy hy]
  · have h1 : Rat.floor (100.7 : ℚ) = 100 := by
      rw [ratFloor_eq_intFloor]; norm_num
    have h2 : Rat.floor (200.9 : ℚ) = 200 := by
      rw [ratFloor_eq_intFloor]; norm_num
    rw [tap, hokx (100.7 : ℚ) (by norm_num), hokx (200.9 : ℚ) (by norm_num)]
    show Except.ok ("input tap " ++ toString (Rat.floor (100.7 : ℚ)) ++ " " ++
      toString (Rat.floor (200.9 : ℚ))) = _
    rw [h1, h2]
    rfl
  · intro x1 y1 x2 y2 dur h
    rcases Classical.em (validCoordVal x1) with hx1 | hx1
    case inr => exact ⟨"x coordinate", by rw [swipe, validatePositiveNumber_error x1 _ hx1]⟩
    obtain ⟨q1, rfl, hq1⟩ := hx1
    rcases Classical.em (validCoordVal y1) with hy1 | hy1
    case inr =>
      exact ⟨"y coordinate",
        by rw [swipe, hokx q1 hq1, validatePositiveNumber_error y1 _ hy1]⟩
    obtain ⟨q2, rfl, hq2⟩ := hy1
    rcases Classical.em (validCoordVal x2) with hx2 | hx2
    case inr =>
      exact ⟨"x coordinate",
        by rw [swipe, hokx q1 hq1, hokx q2 hq2, validatePositiveNumber_error x2 _ hx2]⟩
    obtain ⟨q3, rfl, hq3⟩ := hx2
    rcases Classical.em (validCoordVal y2) with hy2 | hy2
    case inr =>
      exact ⟨"y coordinate",
        by rw [swipe, hokx q1 hq1, hokx q2 hq2, hokx q3 hq3,
          validatePositiveNumber_error y2 _ hy2]⟩
    obtain ⟨q4, rfl, hq4⟩ := hy2
    rcases Classical.em (validCoordVal dur) with hd | hd
    case inr =>
      exact ⟨"duration",
        by rw [swipe, hokx q1 hq1, hokx q2 hq2, hokx q3 hq3, hokx q4 hq4,
          validatePositiveNumber_error dur _ hd]⟩
    obtain ⟨qd, rfl, hqd⟩ := hd
    rcases h with h | h | h | h | h
    · exact absurd ⟨q1, rfl, hq1⟩ h
    · exact absurd ⟨q2, rfl, hq2⟩ h
    · exact absurd ⟨q3, rfl, hq3⟩ h
    · exact absurd ⟨q4, rfl, hq4⟩ h
    · exact absurd ⟨qd, rfl, hqd⟩ h
  · intro q1 q2 q3 q4 qd h1 h2 h3 h4 hd
    rw [swipe, hokx q1 h1, hokx q2 h2, hokx q3 h3, hokx q4 h4, hokx qd hd]

/-- Witness for C3: a NaN coordinate is rejected, integer-valued
coordinates are floored into the built command. -/
theorem C3_input_validation_and_flooring_witness :
    (∃ name, tap (.num .nan) (.num (.finite 5)) =
      .error (name ++ " must be a positive number")) ∧
    tap (.num (.finite 100)) (.num (.finite 0)) =
      .ok ("input tap " ++ toString (Rat.floor (100 : ℚ)) ++ " " ++
        toString (Rat.floor (0 : ℚ))) ∧
    (∃ name, swipe (.num (.finite 1)) (.num (.finite 2)) (.num (.finite 3))
        (.num (.finite 4)) (.num .negInf) =
      .error (name ++ " must be a positive number")) :=
  ⟨C3_input_validation_and_flooring.1 (.num .nan) (.num (.finite 5))
      (Or.inl (by simp [validCoordVal])),
   C3_input_validation_and_flooring.2.1 100 0 (by decide) (by decide),
   C3_input_validation_and_flooring.2.2.2.1 (.num (.finite 1)) (.num (.finite 2))
      (.num (.finite 3)) (.num (.finite 4)) (.num .negInf)
      (by simp [validCoordVal])⟩

/-- C5: `autoConnect` fails with `No devices found` on an empty device
sequence, fails with `No authorized devices found` when no record's
status is exactly `device` (so `unauthorized`/`offline` records never
qualify), and otherwise assigns, announces via a `connected` event and
returns the id of the first record in enumeration order whose status
is `device`. -/
theorem C5_autoConnect_selection (devices : List DeviceRecord) :
    (devices = [] → autoConnect devices = .error "No devices found") ∧
    (devices ≠ [] → (∀ d ∈ devices, d.status ≠ "device") →
      autoConnect devices = .error "No authorized devices found") ∧
    (∀ pre d post, devices = pre ++ d :: post →
      (∀ p ∈ pre, p.status ≠ "device") → d.status = "device" →
      autoConnect devices = .ok ⟨d.id, [Event.connected d.id]⟩) ∧
    (DeviceRecord.mk "u" "unauthorized").status ≠ "device" ∧
    (DeviceRecord.mk "o" "offline").status ≠ "device" := by
  refine ⟨?_, ?_, ?_, by decide, by decide⟩
  · rintro rfl
    rfl
  · intro hne hall
    have hlen : ¬ devices.length = 0 := by
      simpa [List.length_eq_zero] using hne
    have hfind : devices.find? (fun d => d.status = "device") = none :=
      List.find?_eq_none.mpr (fun d hd => by simpa using hall d hd)
    simp [autoConnect, hlen, hfind]
  · rintro pre d post rfl hpre hd
    have hlen : ¬ (pre ++ d :: post).length = 0 := by simp
    have hfindPre : pre.find? (fun d => d.status = "device") = none :=
      List.find?_eq_none.mpr (fun p hp => by simpa using hpre p hp)
    have hfind : (pre ++ d :: post).find? (fun d => d.status = "device") = some d := by
      rw [List.find?_append, hfindPre, Option.none_or]
      exact List.find?_cons_of_pos _ (by simpa using hd)
    simp [autoConnect, hlen, hfind]

/-- Witness for C5: a mixed list connects to the first `device`-status
record, an unauthorized/offline-only list and the empty list fail. -/
theorem C5_autoConnect_selection_witness :
    autoConnect ([] : List DeviceRecord) = .error "No devices found" ∧
    autoConnect [⟨"u", "unauthorized"⟩, ⟨"o", "offline"⟩] =
      .error "No authorized devices found" ∧
    autoConnect [⟨"a", "offline"⟩, ⟨"b", "device"⟩, ⟨"c", "device"⟩] =
      .ok ⟨"b", [Event.connected "b"]⟩ :=
  ⟨(C5_autoConnect_selection []).1 rfl,
   (C5_autoConnect_selection [⟨"u", "unauthorized"⟩, ⟨"o", "offline"⟩]).2.1
     (by decide) (by decide),
   (C5_autoConnect_selection [⟨"a", "offline"⟩, ⟨"b", "device"⟩, ⟨"c", "device"⟩]).2.2.1
     [⟨"a", "offline"⟩] ⟨"b", "device"⟩ [⟨"c", "device"⟩] rfl (by decide) rfl⟩

theorem findLabeledNat_eq_none_of_not_contains (label : List Char) :
    ∀ cs, containsSub label cs = false → findLabeledNat label cs = none := by
  intro cs
  induction cs with
  | nil =>
      intro h
      cases label with
      | nil => simp [containsSub] at h
      | cons a as => rfl
  | cons c cs ih =>
      intro h
      rw [containsSub, Bool.or_eq_false_iff] at h
      rw [findLabeledNat, matchNumAt, h.1]
      exact ih h.2

/-- C6: the four battery fields are parsed by independent labelled
captures anywhere in the raw text; a field whose label yields no match
is null while a present `0` stays `0`, temperature is the captured
integer divided by 10, and on the claim's example input the snapshot
is `{level:85, status:2, health:2, temperature:25}`; text without a
label parses that field to null rather than failing. -/
theorem C6_battery_parsing (output : String) :
    (getBatteryInfo "level: 85\nstatus: 2\nhealth: 2\ntemperature: 250" =
      ⟨some 85, some 2, some 2, some 25⟩) ∧
    (containsSub "level: ".data output.data = false →
      (getBatteryInfo output).level = none) ∧
    (containsSub "status: ".data output.data = false →
      (getBatteryInfo output).status = none) ∧
    (containsSub "health: ".data output.data = false →
      (getBatteryInfo output).health = none) ∧
    (containsSub "temperature: ".data output.data = false →
      (getBatteryInfo output).temperature = none) ∧
    (getBatteryInfo "level: 0" = ⟨some 0, none, none, none⟩) ∧
    (∀ out : String, ∀ n : ℕ,
      findLabeledNat "temperature: ".data out.data = some n →
      (getBatteryInfo out).temperature = some ((n : ℚ) / 10)) := by
  refine ⟨?_, ?_, ?_, ?_, ?_, by rfl, ?_⟩
  · have h : getBatteryInfo "level: 85\nstatus: 2\nhealth: 2\ntemperature: 250" =
        ⟨some 85, some 2, some 2, some ((250 : ℚ) / 10)⟩ := rfl
    rw [h]
    norm_num
  · intro h
    simpa [getBatteryInfo] using findLabeledNat_eq_none_of_not_contains _ _ h
  · intro h
    simpa [getBatteryInfo] using findLabeledNat_eq_none_of_not_contains _ _ h
  · intro h
    simpa [getBatteryInfo] using findLabeledNat_eq_none_of_not_contains _ _ h
  · intro h
    simp [getBatteryInfo, findLabeledNat_eq_none_of_not_contains _ _ h]
  · intro out n h
    simp [getBatteryInfo, h]

/-- Witness for C6: on text with none of the battery labels every
field parses to null. -/
theorem C6_battery_parsing_witness :
    (getBatteryInfo "Current Battery Service state:").level = none ∧
    (getBatteryInfo "Current Battery Service state:").status = none ∧
    (getBatteryInfo "Current Battery Service state:").health = none ∧
    (getBatteryInfo "Current Battery Service state:").temperature = none ∧
    (getBatteryInfo "temperature: 5").temperature = some ((5 : ℚ) / 10) :=
  ⟨(C6_battery_parsing "Current Battery Service state:").2.1 (by rfl),
   (C6_battery_parsing "Current Battery Service state:").2.2.1 (by rfl),
   (C6_battery_parsing "Current Battery Service state:").2.2.2.1 (by rfl),
   (C6_battery_parsing "Current Battery Service state:").2.2.2.2.1 (by rfl),
   (C6_battery_parsing "x").2.2.2.2.2.2 "temperature: 5" 5 (by rfl)⟩

/-- C7 counterexample: the claim asserts that a cached geometry always
has positive width and height, but the `<digits>x<digits>` pattern
accepts a zero dimension: one `getScreenSize` call on raw output
`Physical size: 0x2400` reaches a session state whose cached width is
`0`, not positive. -/
theorem C7_zero_width_reachable :
    runOps none [SessionOp.screenQuery true "Physical size: 0x2400"] =
      some ⟨0, 2400⟩ ∧
    ¬ (0 < (ScreenSize.mk 0 2400).width) :=
  ⟨rfl, by decide⟩

theorem screenStep_nonneg (cache : Option ScreenSize) (refresh : Bool) (raw : String)
    (h : nonnegGeom cache) : nonnegGeom (screenStep cache refresh raw) := by
  unfold screenStep getScreenSize
  cases cache with
  | none =>
      cases hp : parseScreenSize raw.data with
      | none => simpa using h
      | some p => exact ⟨Int.natCast_nonneg p.1, Int.natCast_nonneg p.2⟩
  | some s =>
      cases refresh with
      | false => exact h
      | true =>
          cases hp : parseScreenSize raw.data with
          | none => simpa using h
          | some p => exact ⟨Int.natCast_nonneg p.1, Int.natCast_nonneg p.2⟩

theorem runOps_nonneg :
    ∀ (ops : List SessionOp) (cache : Option ScreenSize),
      nonnegGeom cache → nonnegGeom (runOps cache ops)
  | [], _, h => h
  | .screenQuery r raw :: ops, cache, h =>
      runOps_nonneg ops _ (screenStep_nonneg cache r raw h)
  | .otherOp :: ops, cache, h => runOps_nonneg ops cache h

/-- C7 amended: once the cached Screen Geometry has been set it has
non-negative (the source accepts a zero dimension, so not necessarily
positive) integer width and height in every reachable session state;
the cache is only ever replaced by a `getScreenSize` call with the
refresh flag or by the first successful query (a cached un-refreshed
call returns it untouched and dispatches no query); and every
`getScreenSize` call that actually queries and whose raw output
contains no digits-x-digits match fails with
`Failed to parse screen size`. -/
theorem C7_cached_geometry_amended (cache : Option ScreenSize) (refresh : Bool)
    (raw : String) :
    (∀ ops sz, runOps none ops = some sz → 0 ≤ sz.width ∧ 0 ≤ sz.height) ∧
    (screenStep cache refresh raw ≠ cache → cache = none ∨ refresh = true) ∧
    (∀ s, cache = some s → refresh = false →
      getScreenSize cache refresh raw = .ok ⟨s, some s, false⟩) ∧
    ((cache = none ∨ refresh = true) → parseScreenSize raw.data = none →
      getScreenSize cache refresh raw = .error "Failed to parse screen size") := by
  refine ⟨?_, ?_, ?_, ?_⟩
  · intro ops sz h
    have := runOps_nonneg ops none trivial
    rw [h] at this
    exact this
  · intro hne
    cases cache with
    | none => exact Or.inl rfl
    | some s =>
        cases refresh with
        | true => exact Or.inr rfl
        | false => exact absurd rfl hne
  · rintro s rfl rfl
    rfl
  · rintro (rfl | rfl) hp
    · simp [getScreenSize, hp]
    · cases cache with
      | none => simp [getScreenSize, hp]
      | some s => simp [getScreenSize, hp]

/-- Witness for C7 amended: a refreshed query on `1080x2400` reaches a
cache with non-negative dimensions; a cached un-refreshed call returns
the cache untouched; an unparsable refresh fails. -/
theorem C7_cached_geometry_amended_witness :
    (0 ≤ (ScreenSize.mk 1080 2400).width ∧ 0 ≤ (ScreenSize.mk 1080 2400).height) ∧
    getScreenSize (some ⟨10, 20⟩) false "ignored" = .ok ⟨⟨10, 20⟩, some ⟨10, 20⟩, false⟩ ∧
    getScreenSize none false "no size in this output" =
      .error "Failed to parse screen size" :=
  ⟨(C7_cached_geometry_amended none true "x").1
      [SessionOp.screenQuery true "1080x2400"] ⟨1080, 2400⟩ rfl,
   (C7_cached_geometry_amended (some ⟨10, 20⟩) false "ignored").2.2.1 ⟨10, 20⟩ rfl rfl,
   (C7_cached_geometry_amended none false "no size in this output").2.2.2
      (Or.inl rfl) rfl⟩

/-- C8: the device-list output parses by discarding the header line,
splitting each remaining non-blank line on the tab separator into an
`{id, status}` pair with status defaulting to the literal `unknown`
when absent, preserving line order: the claim's example yields the two
records in order, header-only text yields the empty sequence, and a
tab-less or trailing-tab line yields status `unknown`. -/
theorem C8_device_list_parsing :
    getDevices "List of devices attached\ndevice1\tdevice\ndevice2\toffline" =
      [⟨"device1", "device"⟩, ⟨"device2", "offline"⟩] ∧
    getDevices "List of devices attached" = [] ∧
    getDevices "List of devices attached\n" = [] ∧
    getDevices "List of devices attached\ndev3" = [⟨"dev3", "unknown"⟩] ∧
    getDevices "List of devices attached\ndev4\t" = [⟨"dev4", "unknown"⟩] ∧
    getDevices "List of devices attached\n\nemulator-5554\tdevice\n  \n" =
      [⟨"emulator-5554", "device"⟩] :=
  ⟨rfl, rfl, rfl, rfl, rfl, rfl⟩

/-- C9: when the primary resumed-activity query fails, the fallback
current-focus output is consulted and its first dotted-identifier
match (when any) is the result; when both queries fail, or the
consulted output holds no dotted-identifier match, the result is null
rather than an error. -/
theorem C9_current_package_fallback (out : String) (fallback : QueryOutcome) :
    (∀ s, firstDottedIdent out.data = some s →
      getCurrentPackage .fail (.ok out) = some (String.mk s)) ∧
    (firstDottedIdent out.data = none → getCurrentPackage .fail (.ok out) = none) ∧
    (getCurrentPackage .fail .fail = none) ∧
    (firstDottedIdent out.data = none → getCurrentPackage (.ok out) fallback = none) := by
  refine ⟨?_, ?_, rfl, ?_⟩
  · intro s h
    simp [getCurrentPackage, h]
  · intro h
    simp [getCurrentPackage, h]
  · intro h
    simp [getCurrentPackage, h]

/-- Witness for C9: the fallback window dump yields its dotted
identifier, a matchless consulted output yields null. -/
theorem C9_current_package_fallback_witness :
    getCurrentPackage .fail
      (.ok "mCurrentFocus=Window\x7bc9d8 u0 com.example.app/com.example.app.MainActivity\x7d") =
      some (String.mk "com.example.app".data) ∧
    getCurrentPackage .fail (.ok "mCurrentFocus=null") = none ∧
    getCurrentPackage (.ok "no identifier in here") .fail = none :=
  ⟨(C9_current_package_fallback
      "mCurrentFocus=Window\x7bc9d8 u0 com.example.app/com.example.app.MainActivity\x7d"
      .fail).1 "com.example.app".data rfl,
   (C9_current_package_fallback "mCurrentFocus=null" .fail).2.1 rfl,
   (C9_current_package_fallback "no identifier in here" .fail).2.2.2 rfl⟩

theorem pkgTailOk_cons (b : Bool) (c : Char) (cs : List Char) :
    pkgTailOk b (c :: cs) =
      if c = '.' then
        (match cs with
         | [] => false
         | d :: ds => d.isAlpha && pkgTailOk true ds)
      else identChar c && pkgTailOk b cs := by
  rw [pkgTailOk.eq_def]

theorem pkgTailOk_decomp :
    ∀ (n : ℕ) (cs : List Char), cs.length ≤ n → ∀ b, pkgTailOk b cs = true →
      ∃ first segs, cs = first ++ (segs.map (fun t => '.' :: t)).flatten ∧
        (∀ c ∈ first, identChar c = true) ∧
        (∀ t ∈ segs, segShape t) ∧
        (b = false → segs ≠ []) := by
  intro n
  induction n with
  | zero =>
      intro cs hlen b h
      have hnil : cs = [] := List.length_eq_zero.mp (Nat.le_zero.mp hlen)
      subst hnil
      refine ⟨[], [], rfl, by simp, by simp, fun hb => absurd (hb ▸ h) (by decide)⟩
  | succ n ih =>
      intro cs hlen b h
      cases cs with
      | nil =>
          refine ⟨[], [], rfl, by simp, by simp, fun hb => absurd (hb ▸ h) (by decide)⟩
      | cons c cs =>
          rw [pkgTailOk_cons] at h
          by_cases hc : c = '.'
          · rw [if_pos hc] at h
            cases cs with
            | nil => exact absurd h (by decide)
            | cons d ds =>
                replace h : (d.isAlpha && pkgTailOk true ds) = true := h
                rw [Bool.and_eq_true] at h
                obtain ⟨hd, hds⟩ := h
                have hlen' : ds.length ≤ n := by
                  simp only [List.length_cons] at hlen
                  omega
                obtain ⟨first', segs', hcs, hfirst, hsegs, -⟩ := ih ds hlen' true hds
                subst hc
                refine ⟨[], (d :: first') :: segs', ?_, by simp, ?_, fun _ => by simp⟩
                · simp [hcs]
                · intro t ht
                  rcases List.mem_cons.mp ht with rfl | ht
                  · exact ⟨d, first', rfl, hd, hfirst⟩
                  · exact hsegs t ht
          · rw [if_neg hc, Bool.and_eq_true] at h
            obtain ⟨hcid, hrest⟩ := h
            have hlen' : cs.length ≤ n := by
              simp only [List.length_cons] at hlen
              omega
            obtain ⟨first', segs', hcs, hfirst, hsegs, hne⟩ := ih cs hlen' b hrest
            refine ⟨c :: first', segs', by simp [hcs], ?_, hsegs, hne⟩
            intro a ha
            rcases List.mem_cons.mp ha with rfl | ha
            · exact hcid
            · exact hfirst a ha

theorem segShape_chars {t : List Char} (h : segShape t) :
    ∀ c ∈ t, identChar c = true := by
  obtain ⟨d, ds, rfl, hd, hds⟩ := h
  intro c hc
  rcases List.mem_cons.mp hc with rfl | hc
  · simp [identChar, hd]
  · exact hds c hc

theorem allowedChar_not_meta (c : Char) (h : identChar c = true ∨ c = '.') :
    c ∉ shellMetaChars := by
  intro hmem
  fin_cases hmem <;> revert h <;> decide

theorem validPackageFormat_decomp (s : String) (h : validPackageFormat s = true) :
    ∃ first segs, s.data = first ++ (segs.map (fun t => '.' :: t)).flatten ∧
      segShape first ∧ (∀ t ∈ segs, segShape t) ∧ segs ≠ [] := by
  rw [validPackageFormat] at h
  cases hd : s.data with
  | nil => rw [hd] at h; exact absurd h (by decide)
  | cons c cs =>
      rw [hd] at h
      replace h : (c.isAlpha && pkgTailOk false cs) = true := h
      rw [Bool.and_eq_true] at h
      obtain ⟨hca, htail⟩ := h
      obtain ⟨first', segs', hcs, hfirst, hsegs, hne⟩ :=
        pkgTailOk_decomp cs.length cs le_rfl false htail
      exact ⟨c :: first', segs', by simp [hd, hcs], ⟨c, first', rfl, hca, hfirst⟩,
        hsegs, hne rfl⟩

/-- C10: every string accepted by the package-name validation is two or
more dot-joined segments, each a letter followed by letters, digits
and underscores, so it contains no shell metacharacter; `forceStop`,
`launchApp` and `clearAppData` embed such a validated name directly
(without the sanitizer) into their shell commands, and on every
non-matching or non-string input all three fail with the validation
error and build no command. -/
theorem C10_package_name_safety :
    (∀ s : String, validPackageFormat s = true →
      (∃ first segs, s.data = first ++ (segs.map (fun t => '.' :: t)).flatten ∧
        segShape first ∧ (∀ t ∈ segs, segShape t) ∧ segs ≠ []) ∧
      (∀ c ∈ s.data, (identChar c = true ∨ c = '.') ∧ c ∉ shellMetaChars)) ∧
    (∀ v : JSVal,
      (∃ s, v = .str s ∧ validPackageFormat s = true ∧
        forceStop v = .ok ("am force-stop " ++ s) ∧
        launchApp v = .ok ("monkey -p " ++ s ++ " -c android.intent.category.LAUNCHER 1") ∧
        clearAppData v = .ok ("pm clear " ++ s)) ∨
      (forceStop v = .error "Invalid package name format" ∧
        launchApp v = .error "Invalid package name format" ∧
        clearAppData v = .error "Invalid package name format")) := by
  constructor
  · intro s hs
    obtain ⟨first, segs, hdata, hfirst, hsegs, hne⟩ := validPackageFormat_decomp s hs
    have hchars : ∀ c ∈ s.data, identChar c = true ∨ c = '.' := by
      intro c hc
      rw [hdata] at hc
      rcases List.mem_append.mp hc with hc | hc
      · exact Or.inl (segShape_chars hfirst c hc)
      · obtain ⟨l, hl, hcl⟩ := List.mem_flatten.mp hc
        obtain ⟨t, ht, rfl⟩ := List.mem_map.mp hl
        rcases List.mem_cons.mp hcl with rfl | hct
        · exact Or.inr rfl
        · exact Or.inl (segShape_chars (hsegs t ht) c hct)
    exact ⟨⟨first, segs, hdata, hfirst, hsegs, hne⟩,
      fun c hc => ⟨hchars c hc, allowedChar_not_meta c (hchars c hc)⟩⟩
  · intro v
    cases v with
    | str s =>
        by_cases hv : validPackageFormat s = true
        · exact Or.inl ⟨s, rfl, hv,
            by simp [forceStop, hv], by simp [launchApp, hv], by simp [clearAppData, hv]⟩
        · exact Or.inr ⟨by simp [forceStop, hv], by simp [launchApp, hv],
            by simp [clearAppData, hv]⟩
    | num n => exact Or.inr ⟨rfl, rfl, rfl⟩
    | other => exact Or.inr ⟨rfl, rfl, rfl⟩

/-- Witness for C10: `com.example.app` is accepted, decomposed and
embedded; the illegal `com.a;rm` stays out. -/
theorem C10_package_name_safety_witness :
    ((∃ first segs,
        ("com.example.app" : String).data =
          first ++ (segs.map (fun t => '.' :: t)).flatten ∧
        segShape first ∧ (∀ t ∈ segs, segShape t) ∧ segs ≠ []) ∧
      (∀ c ∈ ("com.example.app" : String).data,
        (identChar c = true ∨ c = '.') ∧ c ∉ shellMetaChars)) ∧
    ((∃ s, JSVal.str "com.example.app" = .str s ∧ validPackageFormat s = true ∧
        forceStop (.str "com.example.app") = .ok ("am force-stop " ++ s) ∧
        launchApp (.str "com.example.app") =
          .ok ("monkey -p " ++ s ++ " -c android.intent.category.LAUNCHER 1") ∧
        clearAppData (.str "com.example.app") = .ok ("pm clear " ++ s)) ∨
      (forceStop (.str "com.example.app") = .error "Invalid package name format" ∧
        launchApp (.str "com.example.app") = .error "Invalid package name format" ∧
        clearAppData (.str "com.example.app") = .error "Invalid package name format")) :=
  ⟨C10_package_name_safety.1 "com.example.app" (by rfl),
   C10_package_name_safety.2 (.str "com.example.app")⟩

end AdbWrapper
